import Mathlib

/-!
Shallow embedding of the energy-balance calculation core of a personal
health-tracking application (TypeScript sources: `src/lib/calories.ts` and
the summary generators in `src/lib/gemini.ts`).

Modelling conventions:
* JavaScript numbers are modelled as rationals (`ℚ`); all the formulas in
  the source use only field arithmetic and rounding, which is exact on `ℚ`.
* `Math.round x` is `⌊x + 1/2⌋` (JS rounds half toward +∞); `Math.ceil` is
  `⌈·⌉`; both are reflected back into `ℚ`.
* Nullable fields are `Option`; JavaScript truthiness of a nullable number
  (`!x` is true for `null` and `0`) is `truthyQ`, of a nullable string
  (`null` and `""` are falsy) is `truthyS`, where a string `Option` models
  the nullable string and `none` stands for both falsy string values.
* Dates are millisecond timestamps (`ℤ`); the current instant (`new Date()`
  in the source) is passed explicitly as a `today` parameter.
-/

/-- JavaScript `Math.round`, reflected into `ℚ`: round half toward +∞. -/
def jsRoundQ (x : ℚ) : ℚ := ((⌊x + 1/2⌋ : ℤ) : ℚ)

/-- JavaScript `Math.ceil`, reflected into `ℚ`. -/
def jsCeilQ (x : ℚ) : ℚ := ((⌈x⌉ : ℤ) : ℚ)

/-- Truthiness of a nullable JS number: `null` and `0` are falsy. -/
def truthyQ (o : Option ℚ) : Bool :=
  match o with
  | some x => x ≠ 0
  | none => false

/-- `x || 0` on a nullable JS number: `null` (and `0`) collapse to `0`. -/
def orZero (o : Option ℚ) : ℚ := o.getD 0

/-- `x || undefined` on a JS number: `0` collapses to `undefined`. -/
def undefIfZero (x : ℚ) : Option ℚ := if x = 0 then none else some x

/-- Milliseconds in a day, the divisor `1000 * 3600 * 24` from the source. -/
def msPerDay : ℚ := 86400000

/-- `calculateBMR` from calories.ts: Mifflin-St Jeor, zero-guarded. -/
def calculateBMR (weight height age : ℚ) (gender : String) : ℚ :=
  if weight = 0 ∨ height = 0 ∨ age = 0 ∨ gender = "" then 0
  else if gender = "male" then
    10 * weight + 6.25 * height - 5 * age + 5
  else
    10 * weight + 6.25 * height - 5 * age - 161

/-- The activity-multiplier lookup in `calculateTDEE`, with the `|| 1.2`
default for unknown levels. -/
def activityMultiplier (activityLevel : String) : ℚ :=
  if activityLevel = "sedentary" then 1.2
  else if activityLevel = "light" then 1.375
  else if activityLevel = "moderate" then 1.55
  else if activityLevel = "active" then 1.725
  else if activityLevel = "very_active" then 1.9
  else 1.2

/-- `calculateTDEE` from calories.ts. -/
def calculateTDEE (bmr : ℚ) (activityLevel : String) : ℚ :=
  if bmr = 0 ∨ activityLevel = "" then 0
  else jsRoundQ (bmr * activityMultiplier activityLevel)

/-- The membership test `exerciseType in metValues.moderate` from
`calculateExerciseCalories`. -/
def knownExerciseType (t : String) : Bool :=
  t = "general" ∨ t = "walking" ∨ t = "cycling" ∨ t = "swimming" ∨ t = "strength"

/-- The membership test `intensity in metValues` from
`calculateExerciseCalories`. -/
def knownIntensity (i : String) : Bool :=
  i = "low" ∨ i = "moderate" ∨ i = "high"

/-- The MET lookup table from `calculateExerciseCalories`, applied to an
already-defaulted intensity and type. -/
def metValue (intensity exerciseType : String) : ℚ :=
  if intensity = "low" then
    if exerciseType = "walking" then 2.5
    else if exerciseType = "cycling" then 4
    else if exerciseType = "swimming" then 5
    else if exerciseType = "strength" then 3.5
    else 3
  else if intensity = "high" then
    if exerciseType = "walking" then 6
    else if exerciseType = "cycling" then 12
    else if exerciseType = "swimming" then 10
    else if exerciseType = "strength" then 6
    else 8
  else
    if exerciseType = "walking" then 4.3
    else if exerciseType = "cycling" then 8
    else if exerciseType = "swimming" then 7
    else if exerciseType = "strength" then 5
    else 5

/-- `calculateExerciseCalories` from calories.ts: unknown type defaults to
"general", unknown intensity to "moderate", result `round(MET * kg * h)`. -/
def calculateExerciseCalories (weight duration : ℚ)
    (intensity exerciseType : String) : ℚ :=
  if weight = 0 ∨ duration = 0 then 0
  else
    let t := if knownExerciseType exerciseType then exerciseType else "general"
    let i := if knownIntensity intensity then intensity else "moderate"
    jsRoundQ (metValue i t * weight * (duration / 60))

/-- `calculateNetCalories` from calories.ts. -/
def calculateNetCalories (caloriesConsumed caloriesBurned : ℚ) : ℚ :=
  caloriesConsumed - caloriesBurned

/-- Weight-management goal direction. -/
inductive Goal where
  | loss
  | maintain
  | gain
deriving DecidableEq, Repr

/-- Weight-management goal rate. -/
inductive Rate where
  | slow
  | moderate
  | fast
deriving DecidableEq, Repr

/-- The `changes[goal][rate]` adjustment table of `calculateCaloriesForGoal`. -/
def goalAdjustment (goal : Goal) (rate : Rate) : ℚ :=
  match goal, rate with
  | .loss, .slow => -250
  | .loss, .moderate => -500
  | .loss, .fast => -750
  | .maintain, _ => 0
  | .gain, .slow => 250
  | .gain, .moderate => 500
  | .gain, .fast => 750

/-- `calculateCaloriesForGoal` from calories.ts. -/
def calculateCaloriesForGoal (tdee : ℚ) (goal : Goal) (rate : Rate) : ℚ :=
  jsRoundQ (tdee + goalAdjustment goal rate)

/-- `calculateBMI` from calories.ts: zero-guarded `kg / (cm/100)²`. -/
def calculateBMI (weight height : ℚ) : ℚ :=
  if weight = 0 ∨ height = 0 then 0
  else weight / ((height / 100) * (height / 100))

/-- `determineWeightGoalFromBMI` from calories.ts. -/
def determineWeightGoalFromBMI (bmi : ℚ) : Goal × Rate :=
  if bmi < 18.5 then (.gain, .moderate)
  else if 18.5 ≤ bmi ∧ bmi < 25 then (.maintain, .moderate)
  else if 25 ≤ bmi ∧ bmi < 30 then (.loss, .moderate)
  else (.loss, .fast)

/-- `calculateTargetCaloriesBasedOnBMI` from calories.ts. -/
def calculateTargetCaloriesBasedOnBMI (weight height tdee : ℚ) : ℚ :=
  let bmi := calculateBMI weight height
  let gr := determineWeightGoalFromBMI bmi
  calculateCaloriesForGoal tdee gr.1 gr.2

/-- `calculateTargetCaloriesForWeightGoal` from calories.ts.  `targetDate`
is the parsed timestamp of the target-date string (`none` for a null or
empty string); `today` is the instant `new Date()` reads. -/
def calculateTargetCaloriesForWeightGoal (currentWeight : ℚ)
    (targetWeight : Option ℚ) (targetDate : Option ℤ) (tdee : ℚ)
    (today : ℤ) : ℚ :=
  match targetWeight, targetDate with
  | some tw, some td =>
    if tw = 0 then calculateTargetCaloriesBasedOnBMI currentWeight 0 tdee
    else if td ≤ today then calculateTargetCaloriesBasedOnBMI currentWeight 0 tdee
    else
      let daysUntilTarget : ℚ := jsCeilQ (((td - today : ℤ) : ℚ) / msPerDay)
      let caloriesPerDay := (tw - currentWeight) * 7700 / daysUntilTarget
      let goalCalories := jsRoundQ (tdee + caloriesPerDay)
      if goalCalories < 1200 then 1200 else goalCalories
  | _, _ => calculateTargetCaloriesBasedOnBMI currentWeight 0 tdee

/-- `estimateWeightChange` from calories.ts. -/
def estimateWeightChange (netCaloriesPerDay days : ℚ) : ℚ :=
  netCaloriesPerDay * days / 7700

/-- Truthiness of a nullable JS string: `null` and `""` are falsy. -/
def truthyS (o : Option String) : Bool :=
  match o with
  | some s => s ≠ ""
  | none => false

/-- `x || undefined` on a nullable JS number (used for the optional
goal-progress output fields): `null` and `0` collapse to `undefined`. -/
def jsOptTruthy (o : Option ℚ) : Option ℚ :=
  match o with
  | some x => if x = 0 then none else some x
  | none => none

/-- The `UserProfile` record of gemini.ts (report-summary module).  The
`target_date` string is modelled by its parsed timestamp, `none` covering
both `null` and the empty string. -/
structure UserProfile where
  height : Option ℚ
  weight : Option ℚ
  target_weight : Option ℚ
  target_date : Option ℤ
  age : Option ℚ
  gender : Option String
  activity_level : Option String
deriving DecidableEq

/-- The `MealData` record of gemini.ts. -/
structure MealData where
  name : String
  calories : ℚ
  protein : Option ℚ
  carbs : Option ℚ
  fat : Option ℚ
  created_at : String
deriving DecidableEq

/-- The `ExerciseData` record of gemini.ts. -/
structure ExerciseData where
  name : String
  calories_burnt : ℚ
  duration : ℚ
  intensity : Option String
  created_at : String
deriving DecidableEq

/-- The `WeightData` record of gemini.ts. -/
structure WeightData where
  weight : ℚ
  created_at : String
deriving DecidableEq

/-- The `{bmr, tdee, maintenance}` result of
`calculateDailyCalorieRequirements`. -/
structure CalorieRequirements where
  bmr : ℚ
  tdee : ℚ
  maintenance : ℚ
deriving DecidableEq

/-- `calculateDailyCalorieRequirements` from gemini.ts. -/
def calculateDailyCalorieRequirements (profile : UserProfile)
    (weight : ℚ) : CalorieRequirements :=
  if truthyQ profile.height = false ∨ truthyQ profile.age = false ∨
     truthyS profile.gender = false ∨ truthyS profile.activity_level = false then
    ⟨0, 0, 0⟩
  else
    let bmr := calculateBMR weight (orZero profile.height) (orZero profile.age)
      (profile.gender.getD "")
    let tdee := calculateTDEE bmr (profile.activity_level.getD "")
    ⟨bmr, tdee, tdee⟩

/-- The guard `profile && weight && profile.height && profile.age &&
profile.gender && profile.activity_level` of `generateDailySummary`. -/
def hasCompleteProfile (weight : Option WeightData)
    (profile : Option UserProfile) : Bool :=
  match profile, weight with
  | some p, some _ =>
    truthyQ p.height && truthyQ p.age && truthyS p.gender &&
      truthyS p.activity_level
  | _, _ => false

/-- `Array.prototype.reduce((sum, x) => sum + f x, 0)`. -/
def sumBy (f : α → ℚ) (l : List α) : ℚ := l.foldl (fun s x => s + f x) 0

/-- Value-level model of `Number.prototype.toFixed(3)` (the source formats
`estimatedWeightChange` as a 3-decimal string; the numeric value of that
string is kept here). -/
def toFixed3 (x : ℚ) : ℚ := jsRoundQ (x * 1000) / 1000

/-- The goal-related block of `generateDailySummary` (the mutable locals
`bmr`, `tdee`, `calorieTarget`, `calorieDeficit`, `estimatedWeightChange`,
`daysUntilTarget` after the profile-complete branch has or has not run). -/
structure DailyGoalCore where
  bmr : ℚ
  tdee : ℚ
  calorieTarget : ℚ
  calorieDeficit : ℚ
  estimatedWeightChange : ℚ
  daysUntilTarget : ℤ
deriving DecidableEq

/-- The profile-complete branch of `generateDailySummary` (gemini.ts lines
365-400): computes bmr/tdee, picks the weight-goal or BMI calorie target,
and derives deficit, estimated change and days-until-target. -/
def dailyGoalCore (weight : Option WeightData) (profile : Option UserProfile)
    (netCalories : ℚ) (today : ℤ) : DailyGoalCore :=
  match profile, weight with
  | some p, some w =>
    if truthyQ p.height && truthyQ p.age && truthyS p.gender &&
        truthyS p.activity_level then
      let req := calculateDailyCalorieRequirements p w.weight
      if truthyQ p.target_weight && p.target_date.isSome then
        let daysUntilTarget : ℤ :=
          match p.target_date with
          | some td => max 0 ⌈(((td - today : ℤ) : ℚ)) / msPerDay⌉
          | none => 0
        let calorieTarget := calculateTargetCaloriesForWeightGoal w.weight
          p.target_weight p.target_date req.tdee today
        let calorieDeficit := calorieTarget - netCalories
        ⟨req.bmr, req.tdee, calorieTarget, calorieDeficit,
          estimateWeightChange calorieDeficit 1, daysUntilTarget⟩
      else
        let calorieTarget := calculateTargetCaloriesBasedOnBMI w.weight
          (orZero p.height) req.tdee
        let calorieDeficit := calorieTarget - netCalories
        ⟨req.bmr, req.tdee, calorieTarget, calorieDeficit,
          estimateWeightChange calorieDeficit 1, 0⟩
    else ⟨0, 0, 0, 0, 0, 0⟩
  | _, _ => ⟨0, 0, 0, 0, 0, 0⟩

/-- The `DailySummary` record returned by `generateDailySummary`. -/
structure DailySummary where
  total_calories_consumed : ℚ
  total_calories_burnt : ℚ
  net_calories : ℚ
  total_protein : ℚ
  total_carbs : ℚ
  total_fat : ℚ
  total_exercise_duration : ℚ
  bmr : ℚ
  tdee : ℚ
  calorie_target : ℚ
  calorie_deficit : ℚ
  estimated_daily_weight_change : ℚ
  target_weight : Option ℚ
  current_weight : Option ℚ
  target_date : Option ℤ
  days_until_target : Option ℤ
deriving DecidableEq

/-- `generateDailySummary` from gemini.ts.  The current instant read by
`new Date()` in the source is passed explicitly as `today`. -/
def generateDailySummary (meals : List MealData) (exercises : List ExerciseData)
    (weight : Option WeightData) (profile : Option UserProfile)
    (today : ℤ) : DailySummary :=
  let totalCaloriesConsumed := sumBy (fun m => m.calories) meals
  let totalCaloriesBurnt := sumBy (fun e => e.calories_burnt) exercises
  let totalProtein := sumBy (fun m => orZero m.protein) meals
  let totalCarbs := sumBy (fun m => orZero m.carbs) meals
  let totalFat := sumBy (fun m => orZero m.fat) meals
  let totalExerciseDuration := sumBy (fun e => e.duration) exercises
  let netCalories := calculateNetCalories totalCaloriesConsumed totalCaloriesBurnt
  let currentWeight := orZero (weight.map (fun w => w.weight))
  let core := dailyGoalCore weight profile netCalories today
  { total_calories_consumed := jsRoundQ totalCaloriesConsumed
    total_calories_burnt := jsRoundQ totalCaloriesBurnt
    net_calories := jsRoundQ netCalories
    total_protein := jsRoundQ totalProtein
    total_carbs := jsRoundQ totalCarbs
    total_fat := jsRoundQ totalFat
    total_exercise_duration := jsRoundQ totalExerciseDuration
    bmr := jsRoundQ core.bmr
    tdee := jsRoundQ core.tdee
    calorie_target := jsRoundQ core.calorieTarget
    calorie_deficit := jsRoundQ core.calorieDeficit
    estimated_daily_weight_change := toFixed3 core.estimatedWeightChange
    target_weight :=
      match profile with
      | some p => jsOptTruthy p.target_weight
      | none => none
    current_weight := undefIfZero currentWeight
    target_date :=
      match profile with
      | some p => p.target_date
      | none => none
    days_until_target :=
      if core.daysUntilTarget = 0 then none else some core.daysUntilTarget }

/-- One element of the `dailyData` array consumed by
`generateMonthlySummary`. -/
structure DayBucket where
  meals : List MealData
  exercises : List ExerciseData
  weight : Option WeightData
deriving DecidableEq

/-- The six running totals accumulated by the first `forEach` of
`generateMonthlySummary`. -/
structure MonthlyTotals where
  consumed : ℚ
  burnt : ℚ
  protein : ℚ
  carbs : ℚ
  fat : ℚ
  duration : ℚ
deriving DecidableEq

/-- One day of the first `forEach` of `generateMonthlySummary`: the six
per-day sums added into the running totals. -/
def monthlyStep (acc : MonthlyTotals) (day : DayBucket) : MonthlyTotals :=
  ⟨acc.consumed + sumBy (fun m => m.calories) day.meals,
   acc.burnt + sumBy (fun e => e.calories_burnt) day.exercises,
   acc.protein + sumBy (fun m => orZero m.protein) day.meals,
   acc.carbs + sumBy (fun m => orZero m.carbs) day.meals,
   acc.fat + sumBy (fun m => orZero m.fat) day.meals,
   acc.duration + sumBy (fun e => e.duration) day.exercises⟩

/-- The first `forEach` of `generateMonthlySummary`: per-day sums added
into six running totals. -/
def monthlyTotals (dailyData : List DayBucket) : MonthlyTotals :=
  dailyData.foldl monthlyStep ⟨0, 0, 0, 0, 0, 0⟩

/-- One step of `counts.set(name, (counts.get(name) || 0) + 1)` on a JS
`Map` in insertion order, modelled as an association list: the first entry
with the given key is incremented, a missing key is appended. -/
def bumpName : List (String × ℕ) → String → List (String × ℕ)
  | [], n => [(n, 1)]
  | (k, c) :: t, n => if k = n then (k, c + 1) :: t else (k, c) :: bumpName t n

/-- `counts.get(name) || 0` on the association-list model of a JS `Map`. -/
def lookupCount : List (String × ℕ) → String → ℕ
  | [], _ => 0
  | (k, c) :: t, n => if k = n then c else lookupCount t n

/-- The `mealCounts` map of `generateMonthlySummary`, filled by the nested
`forEach` over days and meals. -/
def mealCountsA (dailyData : List DayBucket) : List (String × ℕ) :=
  dailyData.foldl
    (fun acc day => day.meals.foldl (fun a m => bumpName a m.name) acc) []

/-- The `exerciseCounts` map of `generateMonthlySummary`. -/
def exerciseCountsA (dailyData : List DayBucket) : List (String × ℕ) :=
  dailyData.foldl
    (fun acc day => day.exercises.foldl (fun a e => bumpName a e.name) acc) []

/-- `Array.from(counts.entries()).sort((a, b) => b[1] - a[1]).slice(0, 3)
.map(entry => entry[0])`: stable descending sort by count, top three
names. -/
def topNames (counts : List (String × ℕ)) : List String :=
  ((counts.mergeSort (fun x y => decide (y.2 ≤ x.2))).take 3).map
    (fun p => p.1)

/-- `const daysCount = dailyData.length || 1`. -/
def monthlyDaysCount (dailyData : List DayBucket) : ℕ :=
  if dailyData.length = 0 then 1 else dailyData.length

/-- `calculateAccuracyIndex` from gemini.ts. -/
def calculateAccuracyIndex (actualWeightChange theoreticalWeightChange : ℚ) : ℚ :=
  if theoreticalWeightChange = 0 then 100
  else if (0 ≤ actualWeightChange ∧ 0 ≤ theoreticalWeightChange) ∨
      (actualWeightChange ≤ 0 ∧ theoreticalWeightChange ≤ 0) then
    let r := min |actualWeightChange| |theoreticalWeightChange| /
      max |actualWeightChange| |theoreticalWeightChange|
    jsRoundQ (r * 100)
  else 0

/-- The `MonthlySummary` record returned by `generateMonthlySummary`. -/
structure MonthlySummary where
  average_daily_calories_consumed : ℚ
  average_daily_calories_burnt : ℚ
  average_net_calories : ℚ
  average_daily_protein : ℚ
  average_daily_carbs : ℚ
  average_daily_fat : ℚ
  average_daily_exercise_duration : ℚ
  weight_change : ℚ
  theoretical_weight_change : ℚ
  accuracy_index : ℚ
  most_common_meals : List String
  most_common_exercises : List String
  days_tracked : ℕ
deriving DecidableEq

/-- `generateMonthlySummary` from gemini.ts.  The `profile` parameter is
accepted but unused, exactly as in the source. -/
def generateMonthlySummary (dailyData : List DayBucket)
    (_profile : Option UserProfile)
    (startWeightData endWeightData : Option WeightData) : MonthlySummary :=
  let t := monthlyTotals dailyData
  let daysCount := monthlyDaysCount dailyData
  let avgDailyCaloriesConsumed := t.consumed / (daysCount : ℚ)
  let avgDailyCaloriesBurnt := t.burnt / (daysCount : ℚ)
  let avgNetCalories := avgDailyCaloriesConsumed - avgDailyCaloriesBurnt
  let avgDailyProtein := t.protein / (daysCount : ℚ)
  let avgDailyCarbs := t.carbs / (daysCount : ℚ)
  let avgDailyFat := t.fat / (daysCount : ℚ)
  let avgDailyExerciseDuration := t.duration / (daysCount : ℚ)
  let weightChange :=
    match startWeightData, endWeightData with
    | some s, some e => e.weight - s.weight
    | _, _ => 0
  let mostCommonMeals := topNames (mealCountsA dailyData)
  let mostCommonExercises := topNames (exerciseCountsA dailyData)
  let theoreticalDailyDeficit := avgDailyCaloriesBurnt - avgDailyCaloriesConsumed
  let theoreticalWeightChange :=
    estimateWeightChange theoreticalDailyDeficit (daysCount : ℚ)
  { average_daily_calories_consumed := jsRoundQ avgDailyCaloriesConsumed
    average_daily_calories_burnt := jsRoundQ avgDailyCaloriesBurnt
    average_net_calories := jsRoundQ avgNetCalories
    average_daily_protein := jsRoundQ avgDailyProtein
    average_daily_carbs := jsRoundQ avgDailyCarbs
    average_daily_fat := jsRoundQ avgDailyFat
    average_daily_exercise_duration := jsRoundQ avgDailyExerciseDuration
    weight_change := weightChange
    theoretical_weight_change := theoreticalWeightChange
    accuracy_index := calculateAccuracyIndex weightChange theoreticalWeightChange
    most_common_meals := mostCommonMeals
    most_common_exercises := mostCommonExercises
    days_tracked := daysCount }

/-- The concatenation of all meal entries of a month, in day order: the
un-bucketed view of the month's meal records. -/
def allMeals : List DayBucket → List MealData
  | [] => []
  | d :: t => d.meals ++ allMeals t

/-- The concatenation of all exercise entries of a month, in day order. -/
def allExercises : List DayBucket → List ExerciseData
  | [] => []
  | d :: t => d.exercises ++ allExercises t

/-- Whether `calculateTargetCaloriesForWeightGoal` reaches its
deadline-based branch: both guards (`!targetWeight || !targetDate` and
`targetDay <= today`) must fail. -/
def weightGoalDeadlinePath (targetWeight : Option ℚ) (targetDate : Option ℤ)
    (today : ℤ) : Bool :=
  match targetWeight, targetDate with
  | some tw, some td => tw ≠ 0 && today < td
  | _, _ => false

theorem jsRoundQ_eq_of (x : ℚ) (n : ℤ) (h1 : (n : ℚ) ≤ x + 1/2)
    (h2 : x + 1/2 < n + 1) : jsRoundQ x = (n : ℚ) := by
  unfold jsRoundQ
  norm_cast
  rw [Int.floor_eq_iff]
  exact ⟨h1, by exact_mod_cast h2⟩

theorem jsCeilQ_eq_of (x : ℚ) (n : ℤ) (h1 : (n : ℚ) - 1 < x)
    (h2 : x ≤ n) : jsCeilQ x = (n : ℚ) := by
  unfold jsCeilQ
  norm_cast
  rw [Int.ceil_eq_iff]
  exact ⟨by exact_mod_cast h1, h2⟩

theorem jsRoundQ_intCast (n : ℤ) : jsRoundQ (n : ℚ) = (n : ℚ) :=
  jsRoundQ_eq_of _ n (by linarith) (by linarith)

theorem jsRoundQ_zero : jsRoundQ 0 = 0 := by
  have h := jsRoundQ_intCast 0
  simpa using h

/-- Claim C4: `calculateAccuracyIndex` returns 100 when the theoretical
change is exactly 0; on matching signs (theoretical nonzero) it returns
`round(min(|a|,|t|)/max(|a|,|t|) * 100)`; on strictly opposite signs it
returns 0; and the three quoted instances evaluate as stated. -/
theorem accuracyIndex_spec :
    (∀ a : ℚ, calculateAccuracyIndex a 0 = 100) ∧
    (∀ a t : ℚ, t ≠ 0 → (0 ≤ a ∧ 0 ≤ t) ∨ (a ≤ 0 ∧ t ≤ 0) →
      calculateAccuracyIndex a t = jsRoundQ (min |a| |t| / max |a| |t| * 100)) ∧
    (∀ a t : ℚ, (a < 0 ∧ 0 < t) ∨ (0 < a ∧ t < 0) →
      calculateAccuracyIndex a t = 0) ∧
    calculateAccuracyIndex 2 2 = 100 ∧
    calculateAccuracyIndex (-1) 2 = 0 ∧
    calculateAccuracyIndex 0 0 = 100 := by
  refine ⟨?_, ?_, ?_, ?_, ?_, ?_⟩
  · intro a
    simp [calculateAccuracyIndex]
  · intro a t ht hs
    unfold calculateAccuracyIndex
    rw [if_neg ht, if_pos hs]
  · intro a t hs
    unfold calculateAccuracyIndex
    rcases hs with ⟨ha, ht⟩ | ⟨ha, ht⟩
    · rw [if_neg (by linarith : ¬ t = 0), if_neg ?_]
      rintro (⟨h1, _⟩ | ⟨_, h2⟩) <;> linarith
    · rw [if_neg (by linarith : ¬ t = 0), if_neg ?_]
      rintro (⟨h1, _⟩ | ⟨_, h2⟩) <;> linarith
  · unfold calculateAccuracyIndex
    rw [if_neg (by norm_num), if_pos (by norm_num)]
    norm_num
    exact_mod_cast jsRoundQ_eq_of 100 100 (by norm_num) (by norm_num)
  · unfold calculateAccuracyIndex
    rw [if_neg (by norm_num), if_neg (by norm_num)]
  · simp [calculateAccuracyIndex]

/-- Witness for C4 at the concrete same-sign input `(1, 2)`. -/
theorem accuracyIndex_spec_witness :
    calculateAccuracyIndex 1 2 = jsRoundQ (min |(1 : ℚ)| |(2 : ℚ)| / max |(1 : ℚ)| |(2 : ℚ)| * 100) :=
  accuracyIndex_spec.2.1 1 2 (by norm_num) (Or.inl ⟨by norm_num, by norm_num⟩)

/-- Claim C7: `calculateExerciseCalories` maps an unknown exercise type to
"general" and an unknown intensity to "moderate", returns
`round(MET * weight * duration/60)` for the resolved MET, and in
particular evaluates to 175 at `(70, 30, "moderate", "running")`. -/
theorem exerciseCalories_spec :
    (∀ (w d : ℚ) (i t : String), knownExerciseType t = false →
      calculateExerciseCalories w d i t = calculateExerciseCalories w d i "general") ∧
    (∀ (w d : ℚ) (i t : String), knownIntensity i = false →
      calculateExerciseCalories w d i t = calculateExerciseCalories w d "moderate" t) ∧
    (∀ w d : ℚ, calculateExerciseCalories w d "moderate" "running" =
      jsRoundQ (5 * w * (d / 60))) ∧
    calculateExerciseCalories 70 30 "moderate" "running" = 175 := by
  refine ⟨?_, ?_, ?_, ?_⟩
  · intro w d i t ht
    unfold calculateExerciseCalories
    rw [ht]
    simp [knownExerciseType]
  · intro w d i t hi
    unfold calculateExerciseCalories
    rw [hi]
    simp [knownIntensity]
  · intro w d
    unfold calculateExerciseCalories
    have hrun : knownExerciseType "running" = false := by decide
    have hmod : knownIntensity "moderate" = true := by decide
    rw [hrun, hmod]
    by_cases hw : w = 0
    · subst hw
      rw [if_pos (Or.inl rfl), show (5 : ℚ) * 0 * (d / 60) = 0 by ring,
        jsRoundQ_zero]
    · by_cases hd : d = 0
      · subst hd
        rw [if_pos (Or.inr rfl), show (5 : ℚ) * w * (0 / 60) = 0 by ring,
          jsRoundQ_zero]
      · rw [if_neg (by tauto)]
        simp [metValue]
  · have h5 : calculateExerciseCalories 70 30 "moderate" "running" =
        jsRoundQ (5 * 70 * (30 / 60)) := by
      unfold calculateExerciseCalories
      have hrun : knownExerciseType "running" = false := by decide
      have hmod : knownIntensity "moderate" = true := by decide
      rw [hrun, hmod, if_neg (by norm_num)]
      simp [metValue]
    rw [h5, show (5 : ℚ) * 70 * (30 / 60) = 175 by norm_num]
    exact_mod_cast jsRoundQ_eq_of 175 175 (by norm_num) (by norm_num)

/-- Witness for C7: the "running" fallback applied at a concrete input. -/
theorem exerciseCalories_spec_witness :
    calculateExerciseCalories 80 60 "low" "running" =
      calculateExerciseCalories 80 60 "low" "general" :=
  exerciseCalories_spec.1 80 60 "low" "running" (by decide)

theorem bmi_height_zero (cw : ℚ) : calculateBMI cw 0 = 0 := by
  unfold calculateBMI
  exact if_pos (Or.inr rfl)

theorem goalFromBMI_zero : determineWeightGoalFromBMI 0 = (Goal.gain, Rate.moderate) := by
  unfold determineWeightGoalFromBMI
  rw [if_pos (by norm_num)]

theorem fallbackTarget_eq (cw tdee : ℚ) :
    calculateTargetCaloriesBasedOnBMI cw 0 tdee = jsRoundQ (tdee + 500) := by
  unfold calculateTargetCaloriesBasedOnBMI
  simp only [bmi_height_zero, goalFromBMI_zero]
  rfl

theorem weightGoal_some_some (cw tdee tw : ℚ) (td today : ℤ) :
    calculateTargetCaloriesForWeightGoal cw (some tw) (some td) tdee today =
      if tw = 0 then calculateTargetCaloriesBasedOnBMI cw 0 tdee
      else if td ≤ today then calculateTargetCaloriesBasedOnBMI cw 0 tdee
      else
        let daysUntilTarget := jsCeilQ (((td - today : ℤ) : ℚ) / msPerDay)
        let caloriesPerDay := (tw - cw) * 7700 / daysUntilTarget
        let goalCalories := jsRoundQ (tdee + caloriesPerDay)
        if goalCalories < 1200 then 1200 else goalCalories := rfl

/-- Counterexample to claim C1 as stated: at `currentWeight = 70`,
`tdee = 2000` the fallback of `calculateTargetCaloriesForWeightGoal`
returns 2500 (= round(tdee + 500), the gain/moderate branch), not
`round(tdee - 750) = 1250`: the height-0 BMI is 0 through the zero-guard
of `calculateBMI`, never infinite. -/
theorem fallbackTarget_cex :
    calculateTargetCaloriesForWeightGoal 70 none none 2000 0 = 2500 ∧
    jsRoundQ (2000 - 750) = 1250 ∧ ((2500 : ℚ) ≠ 1250) := by
  refine ⟨?_, ?_, by norm_num⟩
  · show calculateTargetCaloriesBasedOnBMI 70 0 2000 = 2500
    rw [fallbackTarget_eq, show (2000 : ℚ) + 500 = ((2500 : ℤ) : ℚ) by norm_num,
      jsRoundQ_intCast]
    norm_num
  · rw [show (2000 : ℚ) - 750 = ((1250 : ℤ) : ℚ) by norm_num, jsRoundQ_intCast]
    norm_num

/-- Claim C1 (amended): on every fallback path of
`calculateTargetCaloriesForWeightGoal` (missing target weight or date, or
a date not strictly in the future), height 0 is passed into the BMI
computation, whose zero-guard yields BMI 0 (not infinity); goal
resolution therefore hits the `bmi < 18.5` branch (goal gain, rate
moderate) and the returned target is `round(tdee + 500)`. -/
theorem fallbackTarget_spec (cw tdee : ℚ) (tw : Option ℚ) (td : Option ℤ)
    (today : ℤ) (_hcw : 0 < cw)
    (hfb : truthyQ tw = false ∨ td = none ∨ ∃ d, td = some d ∧ d ≤ today) :
    calculateBMI cw 0 = 0 ∧
    determineWeightGoalFromBMI (calculateBMI cw 0) = (Goal.gain, Rate.moderate) ∧
    calculateTargetCaloriesForWeightGoal cw tw td tdee today =
      jsRoundQ (tdee + 500) := by
  refine ⟨bmi_height_zero cw, ?_, ?_⟩
  · rw [bmi_height_zero]
    exact goalFromBMI_zero
  · cases tw with
    | none =>
      show calculateTargetCaloriesBasedOnBMI cw 0 tdee = _
      exact fallbackTarget_eq cw tdee
    | some x =>
      cases td with
      | none =>
        show calculateTargetCaloriesBasedOnBMI cw 0 tdee = _
        exact fallbackTarget_eq cw tdee
      | some d =>
        rw [weightGoal_some_some]
        by_cases hx : x = 0
        · rw [if_pos hx]
          exact fallbackTarget_eq cw tdee
        · have hd : d ≤ today := by
            rcases hfb with h | h | ⟨d', hd', hle⟩
            · simp [truthyQ] at h
              exact absurd h hx
            · exact absurd h (by simp)
            · cases hd'
              exact hle
          rw [if_neg hx, if_pos hd]
          exact fallbackTarget_eq cw tdee

/-- Witness for C1 (amended), at `currentWeight = 70`, `tdee = 2000` with
both goal fields missing. -/
theorem fallbackTarget_spec_witness :
    calculateBMI 70 0 = 0 ∧
    determineWeightGoalFromBMI (calculateBMI 70 0) = (Goal.gain, Rate.moderate) ∧
    calculateTargetCaloriesForWeightGoal 70 none none 2000 0 =
      jsRoundQ (2000 + 500) :=
  fallbackTarget_spec 70 2000 none none 0 (by norm_num) (Or.inl rfl)

/-- Claim C5: with a target date on or before `today`,
`calculateTargetCaloriesForWeightGoal` never reaches the deadline branch
and returns the BMI-based fallback; the deadline branch requires a date
strictly greater than `today`. -/
theorem weightGoalBoundary_spec (cw tdee : ℚ) (tw : Option ℚ) (td today : ℤ) :
    (td ≤ today →
      weightGoalDeadlinePath tw (some td) today = false ∧
      calculateTargetCaloriesForWeightGoal cw tw (some td) tdee today =
        calculateTargetCaloriesBasedOnBMI cw 0 tdee) ∧
    (weightGoalDeadlinePath tw (some td) today = true → today < td) := by
  constructor
  · intro hle
    have hnlt : ¬ today < td := not_lt.mpr hle
    constructor
    · cases tw with
      | none => rfl
      | some x => simp [weightGoalDeadlinePath, hnlt]
    · cases tw with
      | none => rfl
      | some x =>
        rw [weightGoal_some_some]
        by_cases hx : x = 0
        · rw [if_pos hx]
        · rw [if_neg hx, if_pos hle]
  · intro hp
    cases tw with
    | none => simp [weightGoalDeadlinePath] at hp
    | some x =>
      simp [weightGoalDeadlinePath] at hp
      exact hp.2

/-- Witness for C5 at a target date exactly equal to today. -/
theorem weightGoalBoundary_spec_witness :
    weightGoalDeadlinePath (some 60) (some 5) 5 = false ∧
    calculateTargetCaloriesForWeightGoal 70 (some 60) (some 5) 2000 5 =
      calculateTargetCaloriesBasedOnBMI 70 0 2000 :=
  (weightGoalBoundary_spec 70 2000 (some 60) 5 5).1 (le_refl 5)

theorem floor1200_eq_max (g : ℚ) :
    (if g < 1200 then (1200 : ℚ) else g) = max 1200 g := by
  by_cases h : g < 1200
  · rw [if_pos h, max_eq_left (le_of_lt h)]
  · rw [if_neg h, max_eq_right (not_lt.mp h)]

/-- Counterexample to claim C6 as stated: `targetWeight = 0` is non-null,
the target date is 7000 days in the future, yet the function takes the
falsy-guard fallback (2500) instead of the quoted deadline formula, whose
value there is 1923. -/
theorem deadlineTarget_cex :
    calculateTargetCaloriesForWeightGoal 70 (some 0) (some (7000 * 86400000)) 2000 0
      = 2500 ∧
    max 1200 (jsRoundQ (2000 + ((0 : ℚ) - 70) * 7700 /
      jsCeilQ ((((7000 * 86400000 - 0 : ℤ)) : ℚ) / msPerDay))) = 1923 ∧
    ((2500 : ℚ) ≠ 1923) := by
  refine ⟨?_, ?_, by norm_num⟩
  · rw [weightGoal_some_some, if_pos rfl, fallbackTarget_eq,
      show (2000 : ℚ) + 500 = ((2500 : ℤ) : ℚ) by norm_num, jsRoundQ_intCast]
    norm_num
  · have hceil : jsCeilQ ((((7000 * 86400000 - 0 : ℤ)) : ℚ) / msPerDay) = ((7000 : ℤ) : ℚ) :=
      jsCeilQ_eq_of _ 7000 (by norm_num [msPerDay]) (by norm_num [msPerDay])
    rw [hceil, show (2000 : ℚ) + ((0 : ℚ) - 70) * 7700 / ((7000 : ℤ) : ℚ) = ((1923 : ℤ) : ℚ)
      by norm_num, jsRoundQ_intCast]
    norm_num

/-- Claim C6 (amended): for a non-null *and nonzero* target weight and a
target date strictly in the future, `calculateTargetCaloriesForWeightGoal`
returns `round(tdee + (targetWeight - currentWeight) * 7700 /
ceil((targetDate - today) / 1 day))` floored at 1200, hence never below
1200 on this path.  (A targetWeight of exactly 0 is falsy in the source
and takes the BMI fallback instead.) -/
theorem deadlineTarget_spec (cw tdee : ℚ) (tw : ℚ) (td today : ℤ)
    (htw : tw ≠ 0) (hfut : today < td) :
    calculateTargetCaloriesForWeightGoal cw (some tw) (some td) tdee today =
      max 1200 (jsRoundQ (tdee + (tw - cw) * 7700 /
        jsCeilQ (((td - today : ℤ) : ℚ) / msPerDay))) ∧
    1200 ≤ calculateTargetCaloriesForWeightGoal cw (some tw) (some td) tdee today := by
  have hnle : ¬ td ≤ today := not_le.mpr hfut
  rw [weightGoal_some_some, if_neg htw, if_neg hnle]
  simp only [floor1200_eq_max]
  exact ⟨trivial, le_max_left _ _⟩

theorem dailyGoalCore_incomplete (weight : Option WeightData)
    (profile : Option UserProfile) (net : ℚ) (today : ℤ)
    (h : hasCompleteProfile weight profile = false) :
    dailyGoalCore weight profile net today = ⟨0, 0, 0, 0, 0, 0⟩ := by
  cases profile with
  | none => rfl
  | some p =>
    cases weight with
    | none => rfl
    | some w =>
      have hb : (truthyQ p.height && truthyQ p.age && truthyS p.gender &&
          truthyS p.activity_level) = false := h
      simp only [dailyGoalCore, hb]
      rfl

/-- Counterexample to claim C2 as stated: a profile with `height = null`
(incomplete) but `target_weight = 60` set, and a weight entry of 70 kg:
`generateDailySummary` still emits `target_weight = 60` instead of
omitting every goal-progress field. -/
theorem dailySummaryIncomplete_cex :
    hasCompleteProfile (some ⟨70, "w"⟩)
      (some ⟨none, some 70, some 60, some 86400000, some 30, some "male",
        some "sedentary"⟩) = false ∧
    (generateDailySummary [] [] (some ⟨70, "w"⟩)
      (some ⟨none, some 70, some 60, some 86400000, some 30, some "male",
        some "sedentary"⟩) 0).target_weight = some 60 ∧
    (some (60 : ℚ) ≠ (none : Option ℚ)) := by
  refine ⟨rfl, ?_, by simp⟩
  rfl

/-- Claim C2 (amended): with an incomplete profile (one of height, age,
gender, activity_level missing/falsy, or no weight entry),
`generateDailySummary` returns bmr, tdee, calorie_target and
calorie_deficit all 0 and omits `days_until_target`; but `target_weight`
and `target_date` are still emitted whenever truthy on the profile, and
`current_weight` whenever a weight entry with nonzero weight exists. -/
theorem dailySummaryIncomplete_spec (meals : List MealData)
    (exercises : List ExerciseData) (weight : Option WeightData)
    (profile : Option UserProfile) (today : ℤ)
    (h : hasCompleteProfile weight profile = false) :
    (generateDailySummary meals exercises weight profile today).bmr = 0 ∧
    (generateDailySummary meals exercises weight profile today).tdee = 0 ∧
    (generateDailySummary meals exercises weight profile today).calorie_target = 0 ∧
    (generateDailySummary meals exercises weight profile today).calorie_deficit = 0 ∧
    (generateDailySummary meals exercises weight profile today).days_until_target
      = none ∧
    (generateDailySummary meals exercises weight profile today).target_weight =
      (match profile with
       | some p => jsOptTruthy p.target_weight
       | none => none) ∧
    (generateDailySummary meals exercises weight profile today).target_date =
      (match profile with
       | some p => p.target_date
       | none => none) ∧
    (generateDailySummary meals exercises weight profile today).current_weight =
      undefIfZero (orZero (weight.map (fun w => w.weight))) := by
  simp only [generateDailySummary, dailyGoalCore_incomplete _ _ _ _ h]
  refine ⟨jsRoundQ_zero, jsRoundQ_zero, jsRoundQ_zero, jsRoundQ_zero, rfl, ?_, ?_, trivial⟩
  · cases profile <;> rfl
  · cases profile <;> rfl

/-- Witness for C2 (amended): empty inputs and a missing profile. -/
theorem dailySummaryIncomplete_spec_witness :
    (generateDailySummary [] [] none none 0).bmr = 0 ∧
    (generateDailySummary [] [] none none 0).tdee = 0 ∧
    (generateDailySummary [] [] none none 0).calorie_target = 0 ∧
    (generateDailySummary [] [] none none 0).calorie_deficit = 0 ∧
    (generateDailySummary [] [] none none 0).days_until_target = none ∧
    (generateDailySummary [] [] none none 0).target_weight =
      (match (none : Option UserProfile) with
       | some p => jsOptTruthy p.target_weight
       | none => none) ∧
    (generateDailySummary [] [] none none 0).target_date =
      (match (none : Option UserProfile) with
       | some p => p.target_date
       | none => none) ∧
    (generateDailySummary [] [] none none 0).current_weight =
      undefIfZero (orZero ((none : Option WeightData).map (fun w => w.weight))) :=
  dailySummaryIncomplete_spec [] [] none none 0 rfl

/-- Claim C3: `generateDailySummary` is a deterministic pure function of
its inputs; the only time dependency is the `today` instant, surfaced
here as an explicit parameter, so identical meal, exercise, weight,
profile and today inputs give identical `DailySummary` records. -/
theorem dailySummaryDeterministic_spec (m1 m2 : List MealData)
    (e1 e2 : List ExerciseData) (w1 w2 : Option WeightData)
    (p1 p2 : Option UserProfile) (t1 t2 : ℤ)
    (hm : m1 = m2) (he : e1 = e2) (hw : w1 = w2) (hp : p1 = p2) (ht : t1 = t2) :
    generateDailySummary m1 e1 w1 p1 t1 = generateDailySummary m2 e2 w2 p2 t2 := by
  subst hm
  subst he
  subst hw
  subst hp
  subst ht
  rfl

/-- Witness for C3 at concrete equal inputs. -/
theorem dailySummaryDeterministic_spec_witness :
    generateDailySummary [] [] none none 0 = generateDailySummary [] [] none none 0 :=
  dailySummaryDeterministic_spec [] [] [] [] none none none none 0 0
    rfl rfl rfl rfl rfl

/-- Witness for C6 (amended): target 60 kg from 70 kg in one day. -/
theorem deadlineTarget_spec_witness :
    calculateTargetCaloriesForWeightGoal 70 (some 60) (some 86400000) 2000 0 =
      max 1200 (jsRoundQ (2000 + ((60 : ℚ) - 70) * 7700 /
        jsCeilQ (((86400000 - 0 : ℤ) : ℚ) / msPerDay))) ∧
    1200 ≤ calculateTargetCaloriesForWeightGoal 70 (some 60) (some 86400000) 2000 0 :=
  deadlineTarget_spec 70 2000 60 86400000 0 (by norm_num) (by norm_num)

theorem foldl_add_eq {α : Type} (f : α → ℚ) (l : List α) : ∀ a : ℚ,
    l.foldl (fun s x => s + f x) a = a + (l.map f).sum := by
  induction l with
  | nil => intro a; simp
  | cons x t ih =>
    intro a
    simp only [List.foldl_cons, List.map_cons, List.sum_cons, ih]
    ring

theorem sumBy_eq {α : Type} (f : α → ℚ) (l : List α) :
    sumBy f l = (l.map f).sum := by
  unfold sumBy
  rw [foldl_add_eq]
  ring

theorem monthlyTotals_fold (dd : List DayBucket) : ∀ acc : MonthlyTotals,
    dd.foldl monthlyStep acc =
      ⟨acc.consumed + ((allMeals dd).map (fun m => m.calories)).sum,
       acc.burnt + ((allExercises dd).map (fun e => e.calories_burnt)).sum,
       acc.protein + ((allMeals dd).map (fun m => orZero m.protein)).sum,
       acc.carbs + ((allMeals dd).map (fun m => orZero m.carbs)).sum,
       acc.fat + ((allMeals dd).map (fun m => orZero m.fat)).sum,
       acc.duration + ((allExercises dd).map (fun e => e.duration)).sum⟩ := by
  induction dd with
  | nil =>
    intro acc
    simp [allMeals, allExercises]
  | cons d t ih =>
    intro acc
    simp only [List.foldl_cons, ih, allMeals, allExercises, List.map_append,
      List.sum_append, monthlyStep, sumBy_eq, MonthlyTotals.mk.injEq]
    exact ⟨by ring, by ring, by ring, by ring, by ring, by ring⟩

theorem monthlyTotals_direct (dd : List DayBucket) :
    monthlyTotals dd =
      ⟨((allMeals dd).map (fun m => m.calories)).sum,
       ((allExercises dd).map (fun e => e.calories_burnt)).sum,
       ((allMeals dd).map (fun m => orZero m.protein)).sum,
       ((allMeals dd).map (fun m => orZero m.carbs)).sum,
       ((allMeals dd).map (fun m => orZero m.fat)).sum,
       ((allExercises dd).map (fun e => e.duration)).sum⟩ := by
  unfold monthlyTotals
  rw [monthlyTotals_fold]
  simp

theorem lookupCount_bumpName (n m : String) (a : List (String × ℕ)) :
    lookupCount (bumpName a n) m =
      lookupCount a m + (if n = m then 1 else 0) := by
  induction a with
  | nil =>
    by_cases h : n = m
    · subst h
      simp [bumpName, lookupCount]
    · simp [bumpName, lookupCount, h]
  | cons p t ih =>
    obtain ⟨k, c⟩ := p
    by_cases hkn : k = n
    · subst hkn
      simp only [bumpName, if_pos rfl, lookupCount]
      by_cases hkm : k = m
      · rw [if_pos hkm, if_pos hkm, if_pos hkm]
      · rw [if_neg hkm, if_neg hkm, if_neg hkm]
        simp
    · simp only [bumpName, if_neg hkn, lookupCount]
      by_cases hkm : k = m
      · rw [if_pos hkm, if_pos hkm]
        have hnm : ¬ n = m := fun hh => hkn (hkm.trans hh.symm)
        rw [if_neg hnm]
        simp
      · rw [if_neg hkm, if_neg hkm, ih]

theorem lookupCount_foldl_meals (n : String) (l : List MealData) :
    ∀ a : List (String × ℕ),
      lookupCount (l.foldl (fun acc m => bumpName acc m.name) a) n =
        lookupCount a n + l.countP (fun m => m.name == n) := by
  induction l with
  | nil => intro a; simp
  | cons x t ih =>
    intro a
    simp only [List.foldl_cons, ih, List.countP_cons]
    rw [lookupCount_bumpName]
    by_cases h : x.name = n <;> simp [h] <;> omega

theorem lookupCount_foldl_exercises (n : String) (l : List ExerciseData) :
    ∀ a : List (String × ℕ),
      lookupCount (l.foldl (fun acc e => bumpName acc e.name) a) n =
        lookupCount a n + l.countP (fun e => e.name == n) := by
  induction l with
  | nil => intro a; simp
  | cons x t ih =>
    intro a
    simp only [List.foldl_cons, ih, List.countP_cons]
    rw [lookupCount_bumpName]
    by_cases h : x.name = n <;> simp [h] <;> omega

theorem mealCountsA_lookup (n : String) (dd : List DayBucket) :
    lookupCount (mealCountsA dd) n =
      (allMeals dd).countP (fun m => m.name == n) := by
  suffices h : ∀ (dd : List DayBucket) (a : List (String × ℕ)),
      lookupCount
          (dd.foldl (fun acc day =>
            day.meals.foldl (fun a m => bumpName a m.name) acc) a) n =
        lookupCount a n + (allMeals dd).countP (fun m => m.name == n) by
    have h0 := h dd []
    simpa [mealCountsA, lookupCount] using h0
  intro dd
  induction dd with
  | nil => intro a; simp [allMeals]
  | cons d t ih =>
    intro a
    simp only [List.foldl_cons, ih, allMeals, List.countP_append]
    rw [lookupCount_foldl_meals]
    omega

theorem exerciseCountsA_lookup (n : String) (dd : List DayBucket) :
    lookupCount (exerciseCountsA dd) n =
      (allExercises dd).countP (fun e => e.name == n) := by
  suffices h : ∀ (dd : List DayBucket) (a : List (String × ℕ)),
      lookupCount
          (dd.foldl (fun acc day =>
            day.exercises.foldl (fun a e => bumpName a e.name) acc) a) n =
        lookupCount a n + (allExercises dd).countP (fun e => e.name == n) by
    have h0 := h dd []
    simpa [exerciseCountsA, lookupCount] using h0
  intro dd
  induction dd with
  | nil => intro a; simp [allExercises]
  | cons d t ih =>
    intro a
    simp only [List.foldl_cons, ih, allExercises, List.countP_append]
    rw [lookupCount_foldl_exercises]
    omega

/-- Claim C9: the per-day fold of `generateMonthlySummary` loses and
duplicates nothing — each accumulated total (consumed and burnt calories,
protein, carbs, fat, exercise duration) and each per-name frequency count
equals the corresponding sum or count over the concatenation of all
entries, and the reported averages are those direct sums divided by the
day count. -/
theorem monthlyAggregation_spec (dd : List DayBucket) (p : Option UserProfile)
    (sW eW : Option WeightData) :
    (monthlyTotals dd).consumed = ((allMeals dd).map (fun m => m.calories)).sum ∧
    (monthlyTotals dd).burnt =
      ((allExercises dd).map (fun e => e.calories_burnt)).sum ∧
    (monthlyTotals dd).protein =
      ((allMeals dd).map (fun m => orZero m.protein)).sum ∧
    (monthlyTotals dd).carbs = ((allMeals dd).map (fun m => orZero m.carbs)).sum ∧
    (monthlyTotals dd).fat = ((allMeals dd).map (fun m => orZero m.fat)).sum ∧
    (monthlyTotals dd).duration =
      ((allExercises dd).map (fun e => e.duration)).sum ∧
    (∀ n, lookupCount (mealCountsA dd) n =
      (allMeals dd).countP (fun m => m.name == n)) ∧
    (∀ n, lookupCount (exerciseCountsA dd) n =
      (allExercises dd).countP (fun e => e.name == n)) ∧
    (generateMonthlySummary dd p sW eW).average_daily_calories_consumed =
      jsRoundQ (((allMeals dd).map (fun m => m.calories)).sum /
        (monthlyDaysCount dd : ℚ)) ∧
    (generateMonthlySummary dd p sW eW).average_daily_calories_burnt =
      jsRoundQ (((allExercises dd).map (fun e => e.calories_burnt)).sum /
        (monthlyDaysCount dd : ℚ)) := by
  have ht := monthlyTotals_direct dd
  refine ⟨by rw [ht], by rw [ht], by rw [ht], by rw [ht], by rw [ht], by rw [ht],
    fun n => mealCountsA_lookup n dd, fun n => exerciseCountsA_lookup n dd,
    ?_, ?_⟩
  · simp only [generateMonthlySummary]
    rw [ht]
  · simp only [generateMonthlySummary]
    rw [ht]

/-- Claim C8: `theoretical_weight_change` equals
`estimateWeightChange(avgBurnt - avgConsumed, dayCount)` on the unrounded
averages, is the negation of the consumed-minus-burnt convention, and is
positive exactly in the weight-loss direction (burnt above consumed). -/
theorem monthlyTheoreticalChange_spec (dd : List DayBucket)
    (p : Option UserProfile) (sW eW : Option WeightData) :
    (generateMonthlySummary dd p sW eW).theoretical_weight_change =
      estimateWeightChange
        (((allExercises dd).map (fun e => e.calories_burnt)).sum /
            (monthlyDaysCount dd : ℚ) -
         ((allMeals dd).map (fun m => m.calories)).sum /
            (monthlyDaysCount dd : ℚ))
        (monthlyDaysCount dd : ℚ) ∧
    (generateMonthlySummary dd p sW eW).theoretical_weight_change =
      -(estimateWeightChange
        (((allMeals dd).map (fun m => m.calories)).sum /
            (monthlyDaysCount dd : ℚ) -
         ((allExercises dd).map (fun e => e.calories_burnt)).sum /
            (monthlyDaysCount dd : ℚ))
        (monthlyDaysCount dd : ℚ)) ∧
    (((allMeals dd).map (fun m => m.calories)).sum <
        ((allExercises dd).map (fun e => e.calories_burnt)).sum →
      0 < (generateMonthlySummary dd p sW eW).theoretical_weight_change) := by
  have ht := monthlyTotals_direct dd
  have h1 : (generateMonthlySummary dd p sW eW).theoretical_weight_change =
      estimateWeightChange
        (((allExercises dd).map (fun e => e.calories_burnt)).sum /
            (monthlyDaysCount dd : ℚ) -
         ((allMeals dd).map (fun m => m.calories)).sum /
            (monthlyDaysCount dd : ℚ))
        (monthlyDaysCount dd : ℚ) := by
    simp only [generateMonthlySummary]
    rw [ht]
  have hn : (0 : ℚ) < (monthlyDaysCount dd : ℚ) := by
    have h1le : 1 ≤ monthlyDaysCount dd := by
      unfold monthlyDaysCount
      split <;> omega
    have : (1 : ℚ) ≤ (monthlyDaysCount dd : ℚ) := by exact_mod_cast h1le
    linarith
  refine ⟨h1, ?_, ?_⟩
  · rw [h1]
    unfold estimateWeightChange
    ring
  · intro hlt
    rw [h1]
    unfold estimateWeightChange
    have hdiff : 0 < ((allExercises dd).map (fun e => e.calories_burnt)).sum /
        (monthlyDaysCount dd : ℚ) -
        ((allMeals dd).map (fun m => m.calories)).sum /
          (monthlyDaysCount dd : ℚ) := by
      have hq := (div_lt_div_iff_of_pos_right hn).mpr hlt
      linarith
    positivity

/-- Witness for C8: one day, nothing eaten, 700 kcal burnt, so the
theoretical change is strictly positive. -/
theorem monthlyTheoreticalChange_spec_witness :
    0 < (generateMonthlySummary [⟨[], [⟨"run", 700, 30, none, "d"⟩], none⟩]
      none none none).theoretical_weight_change :=
  (monthlyTheoreticalChange_spec [⟨[], [⟨"run", 700, 30, none, "d"⟩], none⟩]
    none none none).2.2 (by simp [allMeals, allExercises])

/-- Claim C10: on an empty day-bucket list with no profile and no
start/end weights, `generateMonthlySummary` still returns a record: all
averages 0, weight_change 0, theoretical_weight_change 0, accuracy_index
100, both most-common lists empty, and days_tracked 1 (the day-count
denominator is floored to 1). -/
theorem monthlyEmpty_spec :
    (generateMonthlySummary [] none none none).average_daily_calories_consumed
      = 0 ∧
    (generateMonthlySummary [] none none none).average_daily_calories_burnt = 0 ∧
    (generateMonthlySummary [] none none none).average_net_calories = 0 ∧
    (generateMonthlySummary [] none none none).average_daily_protein = 0 ∧
    (generateMonthlySummary [] none none none).average_daily_carbs = 0 ∧
    (generateMonthlySummary [] none none none).average_daily_fat = 0 ∧
    (generateMonthlySummary [] none none none).average_daily_exercise_duration
      = 0 ∧
    (generateMonthlySummary [] none none none).weight_change = 0 ∧
    (generateMonthlySummary [] none none none).theoretical_weight_change = 0 ∧
    (generateMonthlySummary [] none none none).accuracy_index = 100 ∧
    (generateMonthlySummary [] none none none).most_common_meals = [] ∧
    (generateMonthlySummary [] none none none).most_common_exercises = [] ∧
    (generateMonthlySummary [] none none none).days_tracked = 1 := by
  simp only [generateMonthlySummary, monthlyTotals, monthlyDaysCount,
    mealCountsA, exerciseCountsA, topNames, List.foldl_nil, List.length_nil,
    List.mergeSort_nil, List.take_nil, List.map_nil]
  norm_num [estimateWeightChange, calculateAccuracyIndex, jsRoundQ_zero]
